import Mathlib

/-!
Shallow embedding of the growth-projection engine of `src/script.js`
(Zuari-Money landing page).

JS `number` values are idealized as exact rationals: `JSNum := Option ℚ`,
where `none` stands for a non-finite double (`NaN` or `±Infinity`; the two
behave identically under the only predicate the code applies to them,
`isFinite`, and under the arithmetic propagation used here).  Chart dataset
entries distinguish JS `null` from numbers: an entry is `Option JSNum`,
with `none` = `null`, `some none` = a non-finite number (NaN/Infinity),
`some (some q)` = a finite number.  Strings are modelled as Lean `String`
(converted to `List Char` internally so every operation is structural and
kernel-evaluable).
-/

/- The Batteries rational-number operations are marked irreducible, which
blocks elaborator-side evaluation of concrete models; restore the default so
`decide` can evaluate the embedded program on concrete inputs. -/
attribute [local semireducible] Rat.mul Rat.inv Rat.add Rat.sub Rat.ofScientific

/-- A JS number: `some q` = finite value, `none` = NaN or ±Infinity. -/
abbrev JSNum := Option ℚ

/-- JS `Math.round`: round half toward +∞ (`Math.round(-2.5) = -2`). -/
def jround (q : ℚ) : ℤ := ⌊q + 1/2⌋

/-- JS `Math.round` lifted to possibly non-finite numbers
(`Math.round(NaN)` is NaN, `Math.round(Infinity)` is Infinity: non-finite in, non-finite out). -/
def jroundN : JSNum → JSNum
  | some v => some ((jround v : ℤ) : ℚ)
  | none => none

/-- JS `+` on numbers (non-finite operands yield a non-finite result). -/
def jadd : JSNum → JSNum → JSNum
  | some a, some b => some (a + b)
  | _, _ => none

/-- JS `*` on numbers (NaN propagates; `0 * Infinity` is NaN — in every case a
non-finite operand yields a non-finite result). -/
def jmul : JSNum → JSNum → JSNum
  | some a, some b => some (a * b)
  | _, _ => none

/-- JS `/` on numbers: division by zero gives ±Infinity or NaN (non-finite);
non-finite operands propagate. -/
def jdiv : JSNum → JSNum → JSNum
  | some a, some b => if b = 0 then none else some (a / b)
  | _, _ => none

/-- JS `Math.pow` with a natural exponent: `Math.pow(x, 0) = 1` for every `x`
(including NaN); otherwise a non-finite base gives a non-finite power. -/
def jpow : JSNum → ℕ → JSNum
  | _, 0 => some 1
  | some a, n+1 => some (a ^ (n+1))
  | none, _+1 => none

/-! ### Character/string helpers (models of the JS string builtins used) -/

/-- Whitespace recognized when trimming / skipping (the ASCII whitespace that
can occur in this widget's inputs; JS additionally trims some exotic Unicode
space characters, which never arise here). -/
def isWsC (c : Char) : Bool := c = ' ' || c = '\t' || c = '\n' || c = '\r'

/-- `String.prototype.trim` on a character list. -/
def trimL (l : List Char) : List Char :=
  ((l.dropWhile isWsC).reverse.dropWhile isWsC).reverse

/-- `str.replace(/,/g, '')`: remove every comma. -/
def removeCommasL (l : List Char) : List Char := l.filter (fun c => !(c == ','))

/-- The cleaning applied by `safeParseNumber`: strip commas, then trim. -/
def cleanL (l : List Char) : List Char := trimL (removeCommasL l)

/-- Numeric value of a decimal digit character. -/
def digitVal (c : Char) : ℕ := c.toNat - '0'.toNat

/-- Value of a most-significant-first list of decimal digits. -/
def natOfDigitsL (l : List Char) : ℕ := l.foldl (fun a c => 10 * a + digitVal c) 0

/-- Longest decimal-digit prefix with its value; `none` when there is no digit
(used for `parseInt` and for exponents in `parseFloat`). -/
def parseDigits (l : List Char) : Option (ℕ × List Char) :=
  let d := l.takeWhile Char.isDigit
  if d.isEmpty then none else some (natOfDigitsL d, l.dropWhile Char.isDigit)

/-- Exponent part of a float literal: optional sign followed by digits. -/
def parseExpPart (l : List Char) : Option (ℤ × List Char) :=
  match l with
  | '+' :: t => (parseDigits t).map (fun p => ((p.1 : ℤ), p.2))
  | '-' :: t => (parseDigits t).map (fun p => (-(p.1 : ℤ), p.2))
  | t => (parseDigits t).map (fun p => ((p.1 : ℤ), p.2))

/-- Unsigned mantissa `digits [. digits]` of a float literal; fails when there
is no digit on either side of the (optional) decimal point. -/
def parseMantissa (l : List Char) : Option (ℚ × List Char) :=
  let ip := l.takeWhile Char.isDigit
  let r1 := l.dropWhile Char.isDigit
  let fr : List Char × List Char :=
    match r1 with
    | '.' :: t => (t.takeWhile Char.isDigit, t.dropWhile Char.isDigit)
    | _ => ([], r1)
  if ip.isEmpty && fr.1.isEmpty then none
  else some ((natOfDigitsL ip : ℚ) + (natOfDigitsL fr.1 : ℚ) / (10 : ℚ) ^ fr.1.length, fr.2)

/-- Model of JS `parseFloat`: skip leading whitespace, optional sign, then the
longest prefix of the form `digits [. digits] [e|E [sign] digits]`; returns the
parsed value together with the unconsumed rest, or `none` when no numeric
prefix exists (JS then returns NaN).  The `Infinity` literal production is
omitted: it never occurs in this widget's inputs, and the `JSNum` model
conflates the non-finite values anyway. -/
def jsParseFloatCore (l : List Char) : Option (ℚ × List Char) :=
  let l1 := l.dropWhile isWsC
  let sl : Bool × List Char :=
    match l1 with
    | '-' :: t => (true, t)
    | '+' :: t => (false, t)
    | t => (false, t)
  match parseMantissa sl.2 with
  | none => none
  | some (m, r) =>
    let mr : ℚ × List Char :=
      match r with
      | 'e' :: t =>
        (match parseExpPart t with
         | some (e, r2) => (m * (10 : ℚ) ^ e, r2)
         | none => (m, r))
      | 'E' :: t =>
        (match parseExpPart t with
         | some (e, r2) => (m * (10 : ℚ) ^ e, r2)
         | none => (m, r))
      | _ => (m, r)
    some (if sl.1 then -mr.1 else mr.1, mr.2)

/-- `parseFloat` as a JS number (drop the unconsumed rest). -/
def jsParseFloatL (l : List Char) : JSNum :=
  match jsParseFloatCore l with
  | some p => some p.1
  | none => none

/-- The cleaned text is in its entirety a well-formed numeric literal
(the float grammar consumes the whole string). -/
def validNumberStringL (l : List Char) : Bool :=
  match jsParseFloatCore l with
  | some (_, []) => true
  | _ => false

/-- `safeParseNumber` of `src/script.js` (lines 21–26), for string arguments
(the only kind this widget passes): the empty string is falsy and yields NaN;
otherwise commas are removed, the text trimmed, and `parseFloat` applied. -/
def safeParseNumberL (l : List Char) : JSNum :=
  if l.isEmpty then none else jsParseFloatL (cleanL l)

/-- `safeParseNumber` on Lean strings. -/
def safeParseNumber (s : String) : JSNum := safeParseNumberL s.toList

/-- `if (s.endsWith('%')) s = s.slice(0, -1)`: strip one trailing percent sign. -/
def stripPercent (l : List Char) : List Char :=
  if l.getLast? = some '%' then l.dropLast else l

/-- `parseCagr` of `src/script.js` (lines 27–36): stringify+trim, strip one
trailing `%`, parse via `safeParseNumber`; NaN stays NaN, a value `> 1` is
interpreted as a whole percentage (divided by 100), a value `≤ 1` is returned
unchanged. -/
def parseCagr (s : String) : JSNum :=
  match safeParseNumberL (stripPercent (trimL s.toList)) with
  | none => none
  | some n => if 1 < n then some (n / 100) else some n

/-- Model of JS `parseInt(s, 10)`: skip leading whitespace, optional sign,
longest decimal-digit prefix; NaN (`none`) when there is no digit. -/
def jsParseInt (s : String) : Option ℤ :=
  match s.toList.dropWhile isWsC with
  | '-' :: t => (parseDigits t).map (fun p => -(p.1 : ℤ))
  | '+' :: t => (parseDigits t).map (fun p => (p.1 : ℤ))
  | t => (parseDigits t).map (fun p => (p.1 : ℤ))

/-! ### Benchmark series (`buildNiftyData`, lines 38–52) -/

/-- `last = result[result.length - 1] || 10000`: the seed's last value, with
JS falsiness sending `0` (and an absent entry) to the fallback `10000`. -/
def lastFallback (seed : List ℚ) : ℚ :=
  match seed.getLast? with
  | none => 10000
  | some v => if v = 0 then 10000 else v

/-- `prev = result[result.length - 2] || last`: the second-to-last seed value;
for seeds with fewer than two entries the array access is `undefined` (falsy),
and a stored `0` is falsy too — both fall back to `last`. -/
def prevFallback (seed : List ℚ) : ℚ :=
  if h : 2 ≤ seed.length then
    let v := seed.get ⟨seed.length - 2, by omega⟩
    if v = 0 then lastFallback seed else v
  else lastFallback seed

/-- `approxCagr` of `buildNiftyData`: `prev > 0 ? last/prev - 1 : 0.08`, then
re-defaulted to `0.08` when non-finite or `≤ -1` (over exact rationals the
quotient of finite values with `prev > 0` is always finite, so only the
`≤ -1` re-default can fire). -/
def approxRate (seed : List ℚ) : ℚ :=
  let last := lastFallback seed
  let prev := prevFallback seed
  if 0 < prev then
    let r := last / prev - 1
    if r ≤ -1 then 8/100 else r
  else 8/100

/-- The `while` loop of `buildNiftyData`: the unrounded accumulator `last` is
multiplied by `(1 + approxCagr)` and the rounded snapshot pushed, `n` times. -/
def extendLoop (last r : ℚ) : ℕ → List ℚ
  | 0 => []
  | n+1 => ((jround (last * (1 + r)) : ℤ) : ℚ) :: extendLoop (last * (1 + r)) r n

/-- `buildNiftyData` of `src/script.js` (lines 38–52): if the seed covers the
axis, truncate and round; otherwise extend by the trailing growth rate and
round everything (`result.map(Math.round)` — rounding the already-integral
pushed values is the identity). -/
def buildNiftyData (years : List ℤ) (seed : List ℚ) : List ℤ :=
  if years.length ≤ seed.length then (seed.take years.length).map jround
  else ((seed ++ extendLoop (lastFallback seed) (approxRate seed)
          (years.length - seed.length)).map jround)

/-! ### Fixed data of the page -/

/-- `baseNiftySamples` (line 18): the 2015..2025 seed. -/
def baseNiftySamples : List ℚ :=
  [10000, 11000, 12500, 13000, 15000, 14000, 18000, 21000, 20000, 24000, 25000]

/-- `YEARS` (line 16): `START_YEAR = 2015` through the current calendar year
(`Array.from` with a negative computed length yields the empty array, hence
the `toNat` clamp). -/
def yearsAxis (currentYear : ℤ) : List ℤ :=
  (List.range (currentYear - 2015 + 1).toNat).map (fun i => 2015 + (i : ℤ))

/-- The page's benchmark data: `buildNiftyData(YEARS, baseNiftySamples)`. -/
def niftyDataOf (currentYear : ℤ) : List ℤ :=
  buildNiftyData (yearsAxis currentYear) baseNiftySamples

/-! ### Number formatting (`fmtINR`, `toFixed`) -/

/-- Grouping step for `toLocaleString('en-IN')` past the first three digits:
groups of two, comma-separated (input and output are least-significant-first). -/
def twosGroups : List Char → List Char
  | [] => []
  | [a] => [a]
  | [a, b] => [a, b]
  | a :: b :: rest => a :: b :: ',' :: twosGroups rest

/-- Indian-locale digit grouping on a least-significant-first digit list:
last three digits, then groups of two. -/
def insertINRCommas (l : List Char) : List Char :=
  if l.length ≤ 3 then l else l.take 3 ++ ',' :: twosGroups (l.drop 3)

/-- `fmtINR` of `src/script.js` (line 20): `'₹' + v.toLocaleString('en-IN',
{maximumFractionDigits: 0})`, for the integral values the page feeds it. -/
def fmtINR (v : ℤ) : String :=
  "₹" ++ (if v < 0 then "-" else "") ++
    ⟨(insertINRCommas ((Nat.toDigits 10 v.natAbs).reverse)).reverse⟩

/-- JS `Number.prototype.toFixed(d)` (ECMA-262): format `|x|` with `d` digits
after the point, rounding to the nearest multiple of `10^(-d)` with ties to the
larger candidate, then prepend the sign of `x`. -/
def jsToFixed (q : ℚ) (d : ℕ) : String :=
  let sign := if q < 0 then "-" else ""
  let m := (⌊|q| * (10 : ℚ) ^ d + 1/2⌋).toNat
  if d = 0 then sign ++ ⟨Nat.toDigits 10 m⟩
  else
    let fracDigits := Nat.toDigits 10 (m % 10 ^ d)
    sign ++ ⟨Nat.toDigits 10 (m / 10 ^ d)⟩ ++ "." ++
      ⟨List.replicate (d - fracDigits.length) '0' ++ fracDigits⟩

/-! ### Chart series (`computeUserSeries`, `scaledNiftyData`) -/

/-- `computeUserSeries` of `src/script.js` (lines 335–342): for each axis year,
`null` before the start year, otherwise `principal * Math.pow(1 + cagr,
year - startYear)`, rounded when finite and `null` when non-finite.  An entry
is `none` (JS `null`), or `some (some k)` (a finite number); by the `isFinite`
guard no `some none` (NaN/Infinity) entry is ever produced. -/
def computeUserSeries (years : List ℤ) (principal : JSNum) (startYear : ℤ)
    (cagr : JSNum) : List (Option JSNum) :=
  years.map fun y =>
    if y < startYear then none
    else
      match jmul principal (jpow (jadd (some 1) cagr) (y - startYear).toNat) with
      | some v => some (some ((jround v : ℤ) : ℚ))
      | none => none

/-- `YEARS.indexOf(startYear)`: the first index of the start year in the axis,
`-1` when absent (in particular when `startYear` is NaN). -/
def jsIndexOf (years : List ℤ) (sy : Option ℤ) : ℤ :=
  match sy with
  | none => -1
  | some s => if s ∈ years then (years.indexOf s : ℤ) else -1

/-- `niftyData[i]` for a possibly negative/out-of-range index: the JS access
yields `undefined`, which behaves as NaN in the ensuing arithmetic. -/
def niftyAt (nifty : List ℤ) (i : ℤ) : JSNum :=
  if i < 0 then none else (nifty.get? i.toNat).map (fun k => ((k : ℤ) : ℚ))

/-- `scaledNiftyData` of `src/script.js` (lines 365–369): each benchmark value
is `null` before the start year and otherwise rescaled by
`principal / niftyData[YEARS.indexOf(startYear)]` and rounded.  A NaN start
year fails every `<` comparison, so no entry is nulled and the scale factor is
computed from an `undefined` baseline (hence NaN).  In the page the benchmark
and the axis have equal length, so pairing them positionally is exact. -/
def scaledNifty (nifty : List ℤ) (years : List ℤ) (sy : Option ℤ)
    (principal : JSNum) : List (Option JSNum) :=
  List.zipWith
    (fun v y =>
      if (match sy with | some s => decide (y < s) | none => false) then none
      else some (jroundN (jmul (some ((v : ℤ) : ℚ))
        (jdiv principal (niftyAt nifty (jsIndexOf years sy))))))
    nifty years

/-! ### The calculator orchestration (`calculateGrowth`, lines 359–410) -/

/-- The display state the calculator mutates: the chart's two datasets, the
projection dataset's `hidden` flag, the result box visibility, and the three
summary text fields. -/
structure ChartState where
  ds0_data : List (Option JSNum)
  ds1_data : List (Option JSNum)
  ds1_hidden : Bool
  resultVisible : Bool
  finalAmountText : String
  totalReturnText : String
  cagrUsedText : String
  deriving DecidableEq, Repr

/-- The inputs `calculateGrowth` reads from the DOM: the amount field's text,
the year select's value, and the `data-cagr` attribute of the active category
button (`none` when no button is active). -/
structure SimInputs where
  amountRaw : String
  yearRaw : String
  activeCagr : Option String
  deriving DecidableEq, Repr

/-- The all-`null` projection series `hideUserSeries` writes (lines 351–356). -/
def nullSeries (years : List ℤ) : List (Option JSNum) := years.map fun _ => none

/-- The common failure path of `calculateGrowth`: hide the result box, clear
the projection data and hide its dataset (the summary texts are untouched). -/
def suppressState (years : List ℤ) (st : ChartState) : ChartState :=
  { st with resultVisible := false, ds1_data := nullSeries years, ds1_hidden := true }

/-- `calculateGrowth` of `src/script.js` (lines 359–410), abstracted over its
closure environment (`YEARS`, `niftyData`, `CURRENT_YEAR`): parse the inputs,
unconditionally overwrite the benchmark dataset with the rescaled series, then
run the validation gate; on failure suppress the results, otherwise compute and
display the summary and the projection series. -/
def calculateGrowthWith (years : List ℤ) (nifty : List ℤ) (currentYear : ℤ)
    (inp : SimInputs) (st : ChartState) : ChartState :=
  let principal := safeParseNumber inp.amountRaw
  let startYear := jsParseInt inp.yearRaw
  let st1 := { st with ds0_data := scaledNifty nifty years startYear principal }
  match inp.activeCagr, principal, startYear with
  | none, _, _ => suppressState years st1
  | some _, none, _ => suppressState years st1
  | some _, some _, none => suppressState years st1
  | some rawCagr, some p, some sy =>
    if p < 1000 then suppressState years st1
    else
      match parseCagr rawCagr with
      | none => suppressState years st1
      | some cagr =>
        if currentYear - sy < 0 then suppressState years st1
        else
          let durationYears := (currentYear - sy).toNat
          let finalAmount := p * (1 + cagr) ^ durationYears
          let totalReturnPercent := (finalAmount - p) / p * 100
          { st1 with
            finalAmountText := fmtINR (jround finalAmount)
            totalReturnText := jsToFixed totalReturnPercent 1 ++ "%"
            cagrUsedText := jsToFixed (cagr * 100) 2 ++ "%"
            resultVisible := true
            ds1_data := computeUserSeries years (some p) sy (some cagr)
            ds1_hidden := false }

/-- The page's `calculateGrowth`, with its actual closure values. -/
def calculateGrowth (currentYear : ℤ) (inp : SimInputs) (st : ChartState) :
    ChartState :=
  calculateGrowthWith (yearsAxis currentYear) (niftyDataOf currentYear)
    currentYear inp st

/-- The chart state built at page load (lines 264–296): dataset 0 holds the
benchmark numbers, dataset 1 is all-`null` and hidden, the result box hidden. -/
def initChartState (years : List ℤ) (nifty : List ℤ) : ChartState :=
  { ds0_data := nifty.map (fun k => some (some ((k : ℤ) : ℚ)))
    ds1_data := nullSeries years
    ds1_hidden := true
    resultVisible := false
    finalAmountText := ""
    totalReturnText := ""
    cagrUsedText := "" }

/-- The summary computation of `calculateGrowth` (lines 390–403), as the
specification's `computeSummary` operation: `none` when the duration is
negative, otherwise the three displayed strings (localized final amount, total
return to 1 decimal place, rate used to 2 decimal places). -/
def computeSummary (currentYear : ℤ) (principal : ℚ) (startYear : ℤ)
    (cagr : ℚ) : Option (String × String × String) :=
  let d := currentYear - startYear
  if d < 0 then none
  else
    let finalAmount := principal * (1 + cagr) ^ d.toNat
    let totalReturnPercent := (finalAmount - principal) / principal * 100
    some (fmtINR (jround finalAmount), jsToFixed totalReturnPercent 1 ++ "%",
      jsToFixed (cagr * 100) 2 ++ "%")

/-- The claim's (and spec's) wording of `buildBenchmarkSeries` for C2, for
comparison against the source's `buildNiftyData`: the trailing rate is
`seed[last]/seed[last-1] - 1`, defaulted to `0.08` whenever the seed has fewer
than 2 entries or the rate is non-finite or `≤ -1`. -/
def buildBenchmarkSeriesSpec (years : List ℤ) (seed : List ℚ) : List ℤ :=
  if years.length ≤ seed.length then (seed.take years.length).map jround
  else
    let last := (seed.getLast?).getD 0
    let rate :=
      if h : 2 ≤ seed.length then
        let r := last / seed.get ⟨seed.length - 2, by omega⟩ - 1
        if r ≤ -1 then 8/100 else r
      else 8/100
    (seed.map jround) ++ (extendLoop last rate (years.length - seed.length)).map jround

/-! ### Helper lemmas -/

lemma jpow_some (a : ℚ) : ∀ n, jpow (some a) n = some (a ^ n)
  | 0 => by simp [jpow]
  | _+1 => rfl

lemma jround_intCast (z : ℤ) : jround ((z : ℤ) : ℚ) = z := by
  rw [jround, Int.floor_int_add]
  norm_num

lemma jdiv_by_zero (p : JSNum) : jdiv p (some 0) = none := by
  cases p <;> simp [jdiv]

lemma extendLoop_length (last r : ℚ) : ∀ n, (extendLoop last r n).length = n
  | 0 => rfl
  | n+1 => by simp [extendLoop, extendLoop_length (last * (1 + r)) r n]

lemma extendLoop_getElem (last r : ℚ) (n k : ℕ) (hk : k < n) :
    (extendLoop last r n)[k]? = some ((jround (last * (1 + r) ^ (k + 1)) : ℤ) : ℚ) := by
  induction n generalizing last k with
  | zero => omega
  | succ n ih =>
    cases k with
    | zero => simp [extendLoop, pow_one]
    | succ k =>
      have harith : last * (1 + r) * (1 + r) ^ (k + 1) = last * (1 + r) ^ (k + 1 + 1) := by
        ring
      simp only [extendLoop, List.getElem?_cons_succ]
      rw [ih (last * (1 + r)) k (by omega), harith]

lemma mem_zipWith_cases {α β γ : Type} (g : α → β → γ) (P : γ → Prop)
    (hg : ∀ a b, P (g a b)) :
    ∀ (l1 : List α) (l2 : List β), ∀ e ∈ List.zipWith g l1 l2, P e := by
  intro l1
  induction l1 with
  | nil => intro l2 e he; simp at he
  | cons a t ih =>
    intro l2 e he
    cases l2 with
    | nil => simp at he
    | cons b u =>
      rcases (by simpa using he : e = g a b ∨ e ∈ List.zipWith g t u) with h | h
      · exact h ▸ hg a b
      · exact ih u e h

lemma calcGrowthWith_ds0 (years nifty : List ℤ) (currentYear : ℤ)
    (inp : SimInputs) (st : ChartState) :
    (calculateGrowthWith years nifty currentYear inp st).ds0_data
      = scaledNifty nifty years (jsParseInt inp.yearRaw)
          (safeParseNumber inp.amountRaw) := by
  simp only [calculateGrowthWith]
  split <;> first
    | rfl
    | (split <;> first
        | rfl
        | (split <;> first
            | rfl
            | (split <;> rfl)))

/-! ### Claims C2, C6, C8, C10 -/

/-- C2 counterexample: on the single-entry seed `[5000]` the code's `prev`
falls back to `last` (the `|| last` for the undefined `seed[-1]`), so the
trailing rate is `5000/5000 - 1 = 0`, not the claimed `0.08` default for seeds
with fewer than 2 entries: the code extends with `5000`, the claim demands
`round(5000 × 1.08) = 5400`. -/
theorem claim_C2_counterexample :
    buildNiftyData [2015, 2016] [5000] = [5000, 5000]
    ∧ buildBenchmarkSeriesSpec [2015, 2016] [5000] = [5000, 5400]
    ∧ buildNiftyData [2015, 2016] [5000] ≠ buildBenchmarkSeriesSpec [2015, 2016] [5000] := by
  decide

/-- C2 (amended): for `|seed| < |axis|`, `buildNiftyData` extends an unrounded
accumulator starting at the last seed value (`10000` when the seed is empty or
ends in `0`) at the rate `last/prev - 1`, where `prev` is the second-to-last
seed value and falls back to `last` when the seed has fewer than two entries
(or stores `0` there); the rate is re-defaulted to `0.08` only when `prev ≤ 0`
or the rate is `≤ -1` — in particular a positive single-entry seed extends at
rate `0`, not `0.08`.  The entry at offset `k` past the seed is
`round(last × (1+rate)^(k+1))` and the result length equals the axis length. -/
theorem claim_C2_amended (years : List ℤ) (seed : List ℚ)
    (h : seed.length < years.length) :
    (buildNiftyData years seed).length = years.length
    ∧ (∀ k, k < years.length - seed.length →
        (buildNiftyData years seed)[seed.length + k]?
          = some (jround (lastFallback seed * (1 + approxRate seed) ^ (k + 1))))
    ∧ (∀ x : ℚ, 0 < x → approxRate [x] = 0) := by
  have hcond : ¬ years.length ≤ seed.length := by omega
  refine ⟨?_, ?_, ?_⟩
  · simp [buildNiftyData, hcond, extendLoop_length]
    omega
  · intro k hk
    rw [buildNiftyData, if_neg hcond, List.getElem?_map,
      List.getElem?_append_right (by omega : seed.length ≤ seed.length + k),
      (by omega : seed.length + k - seed.length = k),
      extendLoop_getElem _ _ _ k hk]
    simp [jround_intCast]
  · intro x hx
    have hne : x ≠ 0 := ne_of_gt hx
    simp [approxRate, lastFallback, prevFallback, hne, hx, div_self hne]

/-- C2 witness for the amended claim, on the page's own data: with an axis of
12 years and the 11-entry seed, the appended entry is `26042` and the length
matches the axis. -/
theorem claim_C2_witness :
    (buildNiftyData (yearsAxis 2026) baseNiftySamples).length = (yearsAxis 2026).length
    ∧ (buildNiftyData (yearsAxis 2026) baseNiftySamples)[11]? = some 26042 := by
  have h := claim_C2_amended (yearsAxis 2026) baseNiftySamples (by decide)
  exact ⟨h.1, (h.2.1 0 (by decide)).trans (by decide)⟩

/-- C6 (confirmed): `computeUserSeries` aligns to the axis: entries for years
before the start year are `null`; entries for years at/after the start year
equal `round(principal × (1+rate)^(year−startYear))`; and no entry is ever a
non-finite number (NaN/Infinity) — the `isFinite` guard maps such values to
`null`. -/
theorem claim_C6 (years : List ℤ) (p r : ℚ) (sy : ℤ) :
    (∀ (i : ℕ) (y : ℤ), years[i]? = some y → y < sy →
        (computeUserSeries years (some p) sy (some r))[i]? = some none)
    ∧ (∀ (i : ℕ) (y : ℤ), years[i]? = some y → sy ≤ y →
        (computeUserSeries years (some p) sy (some r))[i]?
          = some (some (some ((jround (p * (1 + r) ^ (y - sy).toNat) : ℤ) : ℚ))))
    ∧ (∀ (P R : JSNum) (e : Option JSNum),
        e ∈ computeUserSeries years P sy R → e ≠ some none) := by
  refine ⟨?_, ?_, ?_⟩
  · intro i y hy hlt
    simp [computeUserSeries, hy, hlt]
  · intro i y hy hle
    have hnlt : ¬ y < sy := not_lt.mpr hle
    simp [computeUserSeries, hy, hnlt, jadd, jpow_some, jmul]
  · intro P R e he
    simp only [computeUserSeries, List.mem_map] at he
    obtain ⟨y, _, rfl⟩ := he
    split
    · simp
    · rcases hv : jmul P (jpow (jadd (some 1) R) (y - sy).toNat) with _ | v <;>
        simp [hv]

/-- C6 witness: the spec's own example, `computeProjection(10000, 2020, 0.10)`
on an axis `2020..2025` has entry `16105 = round(10000 × 1.1^5)` at 2025. -/
theorem claim_C6_witness :
    (computeUserSeries [2020, 2021, 2022, 2023, 2024, 2025] (some 10000) 2020
        (some (1/10)))[5]? = some (some (some 16105)) := by
  have h := (claim_C6 [2020, 2021, 2022, 2023, 2024, 2025] 10000 (1/10) 2020).2.1
    5 2025 (by decide) (by decide)
  exact h.trans (by decide)

/-- C8 (confirmed): when the seed covers the axis, `buildNiftyData` is the
seed truncated to the axis length with every value rounded. -/
theorem claim_C8 (years : List ℤ) (seed : List ℚ) (h : years.length ≤ seed.length) :
    buildNiftyData years seed = (seed.take years.length).map jround
    ∧ (buildNiftyData years seed).length = years.length := by
  refine ⟨by simp [buildNiftyData, h], ?_⟩
  simp [buildNiftyData, h, List.length_take]
  try omega

/-- C8 witness: a 4-entry seed against a 3-year axis truncates and rounds
(`round(5/2) = 3` under JS half-up rounding). -/
theorem claim_C8_witness :
    buildNiftyData [2015, 2016, 2017] [1, 5/2, 3, 4] = [1, 3, 3]
    ∧ (buildNiftyData [2015, 2016, 2017] [1, 5/2, 3, 4]).length = 3 := by
  have h := claim_C8 [2015, 2016, 2017] [1, 5/2, 3, 4] (by decide)
  exact ⟨h.1.trans (by decide), h.2⟩

/-- C10 (confirmed, implicit claim): at the start year itself the exponent is
`0` and `Math.pow(x, 0) = 1` for every `x` (even NaN), so the projection entry
at the start year is `round(principal)` for every finite principal, whatever
the rate. -/
theorem claim_C10 (years : List ℤ) (p : ℚ) (sy : ℤ) (r : JSNum) (i : ℕ)
    (h : years[i]? = some sy) :
    (computeUserSeries years (some p) sy r)[i]?
      = some (some (some ((jround p : ℤ) : ℚ))) := by
  simp [computeUserSeries, h, sub_self, Int.toNat_zero, jpow, jmul, mul_one]

/-- C10 witness: at the start year the entry is the rounded principal even for
a NaN rate. -/
theorem claim_C10_witness :
    (computeUserSeries [2018, 2019, 2020] (some 2500) 2019 none)[1]?
      = some (some (some 2500)) := by
  exact (claim_C10 [2018, 2019, 2020] 2500 2019 none 1 (by decide)).trans (by decide)

/-! ### Claims C3 and C5 (parsing) -/

/-- C3 counterexample: the code compares the signed value, not the magnitude:
`parseCagr("-150")` parses to `-150`, whose magnitude exceeds 1, yet the code
returns `-150` unchanged instead of the claimed `-150/100 = -1.5`. -/
theorem claim_C3_counterexample :
    parseCagr "-150" = some (-150) ∧ ((-150 : ℚ) ≠ (-150 : ℚ) / 100) := by
  decide

/-- C3 (amended): `parseCagr` strips an optional trailing `%` and parses the
rest; a non-numeric input yields NaN; a parsed value `n > 1` (signed
comparison, not magnitude) is divided by 100, and `n ≤ 1` — including every
negative value, e.g. `"-150" ↦ -150` — is returned unchanged.  The claim's
examples hold (`parseRate(0.1)` reaches the code as the string `"0.1"`, since
`String(0.1) = "0.1"`). -/
theorem claim_C3_amended :
    (∀ (v : String) (n : ℚ),
        safeParseNumberL (stripPercent (trimL v.toList)) = some n →
        parseCagr v = some (if 1 < n then n / 100 else n))
    ∧ (∀ v : String,
        safeParseNumberL (stripPercent (trimL v.toList)) = none → parseCagr v = none)
    ∧ parseCagr "10" = some (1/10) ∧ parseCagr "10%" = some (1/10)
    ∧ parseCagr "0.1" = some (1/10) ∧ parseCagr "150" = some (3/2)
    ∧ parseCagr "-150" = some (-150) := by
  refine ⟨?_, ?_, by decide, by decide, by decide, by decide, by decide⟩
  · intro v n h
    simp only [parseCagr, h]
    split_ifs <;> rfl
  · intro v h
    simp only [parseCagr, h]

/-- C3 witness: the amended rule at the concrete input `"12"`. -/
theorem claim_C3_witness : parseCagr "12" = some ((12 : ℚ) / 100) := by
  have h := claim_C3_amended.1 "12" 12 (by decide)
  rwa [if_pos (by norm_num : (1 : ℚ) < 12)] at h

/-- C5 counterexample: `parseFloat` accepts any string with a valid numeric
prefix, so `safeParseNumber("10abc")` returns `10` even though `"10abc"` is
not a valid number — refuting "returns NaN exactly when the cleaned text is
not a valid number". -/
theorem claim_C5_counterexample :
    safeParseNumber "10abc" = some 10
    ∧ validNumberStringL (cleanL "10abc".toList) = false := by
  decide

/-- C5 (amended): `safeParseNumber` strips commas, trims, and parses the
longest leading float prefix; it returns NaN exactly when the cleaned text has
no valid numeric prefix — text after a valid prefix is ignored (e.g.
`"10abc" ↦ 10`) rather than rejected.  In particular every entirely-valid
numeric string parses successfully, and the claim's examples hold. -/
theorem claim_C5_amended :
    (∀ s : String, validNumberStringL (cleanL s.toList) = true →
        (safeParseNumber s).isSome = true)
    ∧ (∀ s : String, jsParseFloatCore (cleanL s.toList) = none →
        safeParseNumber s = none)
    ∧ safeParseNumber "10,000" = some 10000
    ∧ safeParseNumber "abc" = none
    ∧ safeParseNumber "" = none
    ∧ safeParseNumber "10abc" = some 10 := by
  refine ⟨?_, ?_, by decide, by decide, by decide, by decide⟩
  · intro s h
    unfold validNumberStringL at h
    unfold safeParseNumber safeParseNumberL jsParseFloatL
    rcases hc : jsParseFloatCore (cleanL s.toList) with _ | ⟨q, rest⟩
    · rw [hc] at h; simp at h
    · rw [hc] at h
      rcases rest with _ | ⟨c, cs⟩
      · by_cases he : s.toList.isEmpty = true
        · have hnil : s.toList = [] := by simpa using he
          rw [hnil] at hc
          have : jsParseFloatCore (cleanL []) = none := by decide
          rw [this] at hc
          cases hc
        · simp [he, hc]
          simpa [String.toList] using he
      · simp at h
  · intro s h
    unfold safeParseNumber safeParseNumberL jsParseFloatL
    split
    · rfl
    · rw [h]

/-- C5 witness: the amended soundness direction at the concrete input
`"12.5"`. -/
theorem claim_C5_witness : (safeParseNumber "12.5").isSome = true :=
  claim_C5_amended.1 "12.5" (by decide)

/-! ### Claims C1, C4, C7, C9 (orchestration) -/

/-- The validation gate as actually evaluated by `calculateGrowth`: an active
category whose rate parses to a finite value, a finite principal `≥ 1000`, a
start year that parses to a finite integer (axis membership is not required),
and a non-negative duration. -/
def gatePass (currentYear : ℤ) (inp : SimInputs) : Prop :=
  ∃ rc p sy c,
    inp.activeCagr = some rc
    ∧ safeParseNumber inp.amountRaw = some p ∧ 1000 ≤ p
    ∧ jsParseInt inp.yearRaw = some sy
    ∧ parseCagr rc = some c
    ∧ 0 ≤ currentYear - sy

lemma calcGrowthWith_gate (years nifty : List ℤ) (currentYear : ℤ)
    (inp : SimInputs) (st : ChartState) :
    (gatePass currentYear inp
      ∧ (calculateGrowthWith years nifty currentYear inp st).resultVisible = true
      ∧ (calculateGrowthWith years nifty currentYear inp st).ds1_hidden = false)
    ∨ (¬ gatePass currentYear inp
      ∧ (calculateGrowthWith years nifty currentYear inp st).resultVisible = false
      ∧ (calculateGrowthWith years nifty currentYear inp st).ds1_hidden = true
      ∧ (calculateGrowthWith years nifty currentYear inp st).ds1_data
          = nullSeries years) := by
  rcases hA : inp.activeCagr with _ | rc
  · refine Or.inr ⟨?_, by simp [calculateGrowthWith, hA, suppressState]⟩
    rintro ⟨rc, p, sy, c, h1, -⟩
    rw [hA] at h1; cases h1
  · rcases hP : safeParseNumber inp.amountRaw with _ | p
    · refine Or.inr ⟨?_, by simp [calculateGrowthWith, hA, hP, suppressState]⟩
      rintro ⟨rc', p, sy, c, -, h2, -⟩
      rw [hP] at h2; cases h2
    · rcases hS : jsParseInt inp.yearRaw with _ | sy
      · refine Or.inr ⟨?_, by simp [calculateGrowthWith, hA, hP, hS, suppressState]⟩
        rintro ⟨rc', p', sy, c, -, -, -, h4, -⟩
        rw [hS] at h4; cases h4
      · by_cases hp : p < 1000
        · refine Or.inr ⟨?_,
            by simp [calculateGrowthWith, hA, hP, hS, if_pos hp, suppressState]⟩
          rintro ⟨rc', p', sy', c, -, h2, h3, -⟩
          rw [hP] at h2
          cases h2
          exact absurd h3 (not_le.mpr hp)
        · rcases hC : parseCagr rc with _ | c
          · refine Or.inr ⟨?_,
              by simp [calculateGrowthWith, hA, hP, hS, if_neg hp, hC, suppressState]⟩
            rintro ⟨rc', p', sy', c, h1, -, -, -, h5, -⟩
            rw [hA] at h1
            cases h1
            rw [hC] at h5; cases h5
          · by_cases hd : currentYear - sy < 0
            · have hd2 : currentYear < sy := by omega
              refine Or.inr ⟨?_,
                by simp [calculateGrowthWith, hA, hP, hS, if_neg hp, hC, hd2,
                  suppressState]⟩
              rintro ⟨rc', p', sy', c', -, -, -, h4, -, h6⟩
              rw [hS] at h4
              cases h4
              exact absurd h6 (not_le.mpr hd)
            · have hd2 : ¬ currentYear < sy := by omega
              refine Or.inl ⟨⟨rc, p, sy, c, hA, hP, not_lt.mp hp, hS, hC, not_lt.mp hd⟩, ?_⟩
              simp [calculateGrowthWith, hA, hP, hS, if_neg hp, hC, hd2]

/-- C1 counterexample, at the page's own data with current year 2026.  First
input: principal `"500"` fails the gate, the result box is hidden — yet the
benchmark dataset has been overwritten (rescaled by `500/10000`), so series
data does change before the gate passes.  Second input: start year `"1990"`
is not a member of the Year Axis, yet the gate passes and visible output is
produced (the code only checks `isFinite(startYear)`). -/
theorem claim_C1_counterexample :
    ((calculateGrowth 2026 ⟨"500", "2015", some "10"⟩
        (initChartState (yearsAxis 2026) (niftyDataOf 2026))).resultVisible = false
      ∧ (calculateGrowth 2026 ⟨"500", "2015", some "10"⟩
          (initChartState (yearsAxis 2026) (niftyDataOf 2026))).ds0_data
        ≠ (initChartState (yearsAxis 2026) (niftyDataOf 2026)).ds0_data)
    ∧ ((calculateGrowth 2026 ⟨"10000", "1990", some "10"⟩
        (initChartState (yearsAxis 2026) (niftyDataOf 2026))).resultVisible = true
      ∧ (1990 : ℤ) ∉ yearsAxis 2026) := by
  decide

/-- C1 (amended): a recalculation produces visible output (result box shown,
projection series revealed) exactly when a category is selected, the principal
is finite and `≥ 1000`, the start year parses to a finite integer (axis
membership is NOT checked), the rate is finite, and the duration is `≥ 0`; on
any failure the result display is suppressed and the projection series is
cleared and hidden — but the rescaled benchmark series is computed and written
to the chart BEFORE the gate, so the benchmark dataset is overwritten
regardless of validation. -/
theorem claim_C1_amended (years nifty : List ℤ) (currentYear : ℤ)
    (inp : SimInputs) (st : ChartState) :
    (calculateGrowthWith years nifty currentYear inp st).ds0_data
      = scaledNifty nifty years (jsParseInt inp.yearRaw) (safeParseNumber inp.amountRaw)
    ∧ (¬ gatePass currentYear inp →
        (calculateGrowthWith years nifty currentYear inp st).resultVisible = false
        ∧ (calculateGrowthWith years nifty currentYear inp st).ds1_hidden = true
        ∧ (calculateGrowthWith years nifty currentYear inp st).ds1_data
            = nullSeries years)
    ∧ (gatePass currentYear inp →
        (calculateGrowthWith years nifty currentYear inp st).resultVisible = true
        ∧ (calculateGrowthWith years nifty currentYear inp st).ds1_hidden = false) := by
  refine ⟨calcGrowthWith_ds0 years nifty currentYear inp st, ?_, ?_⟩ <;>
    rcases calcGrowthWith_gate years nifty currentYear inp st with
      ⟨hg, hvis⟩ | ⟨hng, hsupp⟩
  · exact fun hng => absurd hg hng
  · exact fun _ => hsupp
  · exact fun _ => hvis
  · exact fun hg => absurd hg hng

/-- C1 witness: a fully valid input passes the gate and shows the result. -/
theorem claim_C1_witness :
    gatePass 2026 ⟨"10000", "2015", some "10"⟩
    ∧ (calculateGrowth 2026 ⟨"10000", "2015", some "10"⟩
        (initChartState (yearsAxis 2026) (niftyDataOf 2026))).resultVisible = true := by
  have hg : gatePass 2026 ⟨"10000", "2015", some "10"⟩ :=
    ⟨"10", 10000, 2015, 1/10, rfl, by decide, by norm_num, by decide, by decide,
      by decide⟩
  exact ⟨hg, ((claim_C1_amended (yearsAxis 2026) (niftyDataOf 2026) 2026
    ⟨"10000", "2015", some "10"⟩
    (initChartState (yearsAxis 2026) (niftyDataOf 2026))).2.2 hg).1⟩

/-- C4 counterexample: with a benchmark series whose value at the start year
is `0` (benchmark parameter exposed, as in the spec's `rescaleBenchmark`), the
scale factor is non-finite, every rescaled entry is NaN — and the caller
assigns this degenerate series to the renderer's benchmark dataset while
showing the results: nothing is flagged invalid or suppressed. -/
theorem claim_C4_counterexample :
    (calculateGrowthWith [2015, 2016] [0, 11000] 2016 ⟨"5000", "2015", some "10"⟩
        (initChartState [2015, 2016] [0, 11000])).ds0_data
      = [some none, some none]
    ∧ (calculateGrowthWith [2015, 2016] [0, 11000] 2016 ⟨"5000", "2015", some "10"⟩
        (initChartState [2015, 2016] [0, 11000])).resultVisible = true := by
  decide

/-- C4 (amended): the rescaled benchmark series is assigned to the renderer's
dataset unconditionally, with no validity flag; when the benchmark value at
the start year is `0` every produced entry is `null` or non-finite (a
degenerate series), and whether the results are shown depends only on the
input-validation gate, not on the benchmark values. -/
theorem claim_C4_amended (years nifty : List ℤ) (currentYear : ℤ)
    (inp : SimInputs) (st : ChartState) :
    (calculateGrowthWith years nifty currentYear inp st).ds0_data
      = scaledNifty nifty years (jsParseInt inp.yearRaw) (safeParseNumber inp.amountRaw)
    ∧ (∀ (sy : Option ℤ) (p : JSNum),
        niftyAt nifty (jsIndexOf years sy) = some 0 →
        ∀ e ∈ scaledNifty nifty years sy p, e = none ∨ e = some none)
    ∧ (∀ nifty2 : List ℤ,
        (calculateGrowthWith years nifty currentYear inp st).resultVisible
          = (calculateGrowthWith years nifty2 currentYear inp st).resultVisible) := by
  refine ⟨calcGrowthWith_ds0 years nifty currentYear inp st, ?_, ?_⟩
  · intro sy p h0 e he
    have hdiv : jdiv p (niftyAt nifty (jsIndexOf years sy)) = none := by
      rw [h0]; exact jdiv_by_zero p
    unfold scaledNifty at he
    refine mem_zipWith_cases _ (fun e => e = none ∨ e = some none) ?_ nifty years e he
    intro v y
    split
    · exact Or.inl rfl
    · rw [hdiv]
      exact Or.inr rfl
  · intro nifty2
    rcases hA : inp.activeCagr with _ | rc
    · simp [calculateGrowthWith, hA, suppressState]
    · rcases hP : safeParseNumber inp.amountRaw with _ | p
      · simp [calculateGrowthWith, hA, hP, suppressState]
      · rcases hS : jsParseInt inp.yearRaw with _ | sy
        · simp [calculateGrowthWith, hA, hP, hS, suppressState]
        · by_cases hp : p < 1000
          · simp [calculateGrowthWith, hA, hP, hS, hp, suppressState]
          · rcases hC : parseCagr rc with _ | c
            · simp [calculateGrowthWith, hA, hP, hS, hp, hC, suppressState]
            · by_cases hd : currentYear < sy
              · simp [calculateGrowthWith, hA, hP, hS, hp, hC, hd, suppressState]
              · simp [calculateGrowthWith, hA, hP, hS, hp, hC, hd]

/-- C4 witness: the degeneracy property applied to a member of the concrete
degenerate series (benchmark `[0, 11000]`, start year 2015, principal 5000). -/
theorem claim_C4_witness :
    ((some none : Option JSNum) = none ∨ (some none : Option JSNum) = some none) :=
  (claim_C4_amended [2015, 2016] [0, 11000] 2016 ⟨"5000", "2015", some "10"⟩
    (initChartState [2015, 2016] [0, 11000])).2.1 (some 2015) (some 5000)
    (by decide) (some none) (by decide)

/-- C7 (confirmed): once the earlier gate conditions hold (active category
with finite rate, finite principal `≥ 1000`, finite start year), the summary
is suppressed exactly when `duration = currentYear − startYear < 0`; otherwise
the displayed values are `finalAmount = principal × (1+rate)^duration` as a
localized no-fraction currency string, the total return percentage to 1
decimal place, and the rate in percent to 2 decimal places — exactly
`computeSummary`. -/
theorem claim_C7 (years nifty : List ℤ) (currentYear : ℤ) (inp : SimInputs)
    (st : ChartState) (rc : String) (p : ℚ) (sy : ℤ) (c : ℚ)
    (hA : inp.activeCagr = some rc)
    (hP : safeParseNumber inp.amountRaw = some p)
    (hp : ¬ p < 1000)
    (hS : jsParseInt inp.yearRaw = some sy)
    (hC : parseCagr rc = some c) :
    ((calculateGrowthWith years nifty currentYear inp st).resultVisible = false
      ↔ currentYear - sy < 0)
    ∧ ((computeSummary currentYear p sy c).isNone ↔ currentYear - sy < 0)
    ∧ (0 ≤ currentYear - sy →
        computeSummary currentYear p sy c
          = some ((calculateGrowthWith years nifty currentYear inp st).finalAmountText,
              (calculateGrowthWith years nifty currentYear inp st).totalReturnText,
              (calculateGrowthWith years nifty currentYear inp st).cagrUsedText)
        ∧ (calculateGrowthWith years nifty currentYear inp st).finalAmountText
            = fmtINR (jround (p * (1 + c) ^ (currentYear - sy).toNat))
        ∧ (calculateGrowthWith years nifty currentYear inp st).totalReturnText
            = jsToFixed ((p * (1 + c) ^ (currentYear - sy).toNat - p) / p * 100) 1 ++ "%"
        ∧ (calculateGrowthWith years nifty currentYear inp st).cagrUsedText
            = jsToFixed (c * 100) 2 ++ "%") := by
  by_cases hd : currentYear - sy < 0
  · have hd2 : currentYear < sy := by omega
    refine ⟨?_, ?_, fun h => absurd hd (not_lt.mpr h)⟩
    · simp [calculateGrowthWith, hA, hP, hS, hp, hC, hd2, suppressState, hd]
    · simp [computeSummary, hd]
  · have hd2 : ¬ currentYear < sy := by omega
    refine ⟨?_, ?_, fun _ => ?_⟩
    · simp [calculateGrowthWith, hA, hP, hS, hp, hC, hd2, hd]
    · simp [computeSummary, hd]
    · refine ⟨?_, ?_, ?_, ?_⟩ <;>
        simp [calculateGrowthWith, hA, hP, hS, hp, hC, hd2, computeSummary, hd]

/-- C7 witness: the spec's own example `computeSummary(10000, 2015, 0.12,
2025)`: duration 10, final amount `₹31,058`, total return `210.6%`, rate used
`12.00%`, with the result visible. -/
theorem claim_C7_witness :
    (calculateGrowth 2025 ⟨"10000", "2015", some "12"⟩
        (initChartState (yearsAxis 2025) (niftyDataOf 2025))).finalAmountText
      = "₹31,058"
    ∧ (calculateGrowth 2025 ⟨"10000", "2015", some "12"⟩
        (initChartState (yearsAxis 2025) (niftyDataOf 2025))).totalReturnText
      = "210.6%"
    ∧ (calculateGrowth 2025 ⟨"10000", "2015", some "12"⟩
        (initChartState (yearsAxis 2025) (niftyDataOf 2025))).cagrUsedText
      = "12.00%" := by
  have h := (claim_C7 (yearsAxis 2025) (niftyDataOf 2025) 2025
    ⟨"10000", "2015", some "12"⟩ (initChartState (yearsAxis 2025) (niftyDataOf 2025))
    "12" 10000 2015 (12/100) rfl (by decide) (by norm_num) (by decide) (by decide)).2.2
    (by norm_num)
  exact ⟨h.2.1.trans (by decide), h.2.2.1.trans (by decide), h.2.2.2.trans (by decide)⟩

/-- C9 (confirmed): the recalculation is a deterministic function of the
inputs and closure data alone — it never reads the previous chart state except
to leave the summary texts untouched on the suppression path — so running it
twice with identical inputs yields exactly the state of a single run. -/
theorem claim_C9 (years nifty : List ℤ) (currentYear : ℤ) (inp : SimInputs)
    (st : ChartState) :
    calculateGrowthWith years nifty currentYear inp
        (calculateGrowthWith years nifty currentYear inp st)
      = calculateGrowthWith years nifty currentYear inp st := by
  rcases hA : inp.activeCagr with _ | rc
  · simp only [calculateGrowthWith, hA]; rfl
  · rcases hP : safeParseNumber inp.amountRaw with _ | p
    · simp only [calculateGrowthWith, hA, hP]; rfl
    · rcases hS : jsParseInt inp.yearRaw with _ | sy
      · simp only [calculateGrowthWith, hA, hP, hS]; rfl
      · by_cases hp : p < 1000
        · simp only [calculateGrowthWith, hA, hP, hS, if_pos hp]; rfl
        · rcases hC : parseCagr rc with _ | c
          · simp only [calculateGrowthWith, hA, hP, hS, if_neg hp, hC]; rfl
          · by_cases hd : currentYear - sy < 0
            · simp only [calculateGrowthWith, hA, hP, hS, if_neg hp, hC, if_pos hd]
              try rfl
            · simp only [calculateGrowthWith, hA, hP, hS, if_neg hp, hC, if_neg hd]
              try rfl

